import Mathlib

/-!
Verification of the EzeeML training-harness specification against a shallow
embedding of the repository's Python sources.

Embedded modules:
* `torchlight/nn/tools.py` — `AverageMeter`
* `torchlite/learner/cores.py` — `ClassifierCore.on_forward_batch`
* `torchlight/nn/train_callbacks.py` — `TrainCallbackList`, `ReduceLROnPlateau`,
  `ModelSaverCallback` (`restore_model`, `on_epoch_end`)
* `torchlite/torch/train_callbacks.py` — `ModelSaverCallback`
  (`restore_models`, `on_epoch_end`)
* `torchlight/nn/models/srgan.py` — `SRGAN.forward`
* `torchlite/pandas/tabular_encoder.py` — `BaseEncoder.transform`

Machine floats carried by the Python code are modelled as rationals; the
imperative effect order of the PyTorch calls (`backward`, `optimizer.step`)
is made explicit as event traces.
-/

namespace EzeeML

/-! ### AverageMeter (torchlight/nn/tools.py, lines 9-35)

`update(val)` increments `count` first and then adds `val * self.count`,
so the i-th arriving value is weighted by its 1-based index i.
`avg` is `self.sum / self.count`: Python raises `ZeroDivisionError` when
`count = 0`, which the embedding renders as `none`. -/

structure AverageMeter where
  val : ℚ
  sum : ℚ
  count : ℕ
  avg_mom : ℚ
  avg_loss_mom : ℚ
deriving Repr, DecidableEq

namespace AverageMeter

/-- `__init__`: all counters zero, `avg_mom = 0.98`. -/
def init : AverageMeter :=
  { val := 0, sum := 0, count := 0, avg_mom := 49/50, avg_loss_mom := 0 }

/-- `update(self, val)`: `count += 1` happens before `sum += val * count`. -/
def update (m : AverageMeter) (v : ℚ) : AverageMeter :=
  { val := v
    count := m.count + 1
    sum := m.sum + v * (m.count + 1)
    avg_mom := m.avg_mom
    avg_loss_mom := m.avg_loss_mom * m.avg_mom + v * (1 - m.avg_mom) }

/-- `avg`: `self.sum / self.count`; dividing by a zero count raises
`ZeroDivisionError` in Python, modelled as `none`. -/
def avg (m : AverageMeter) : Option ℚ :=
  if m.count = 0 then none else some (m.sum / m.count)

end AverageMeter

/-! ### ClassifierCore (torchlite/learner/cores.py, lines 105-124)

The core is parametrised by the abstract model forward function, the loss
criterion and the optimizer-step effect. The state carries the model
parameters, the average meter and the two log slots the code writes
(`batch_logs` / `epoch_logs`). An event trace records the imperative
calls the step performs. -/

inductive Step
  | training
  | validation
  | prediction
deriving Repr, DecidableEq

inductive CoreEvent
  | meterUpdate
  | batchLogWrite
  | optimZeroGrad
  | lossBackward
  | optimStep
  | epochLogWrite
deriving Repr, DecidableEq

structure CoreLogs where
  batch_logs : Option ℚ
  epoch_logs : Option (String × Option ℚ)
deriving Repr, DecidableEq

structure CoreState (P : Type) where
  params : P
  meter : AverageMeter
  logs : CoreLogs
deriving Repr, DecidableEq

structure CoreResult (P L : Type) where
  state : CoreState P
  logits : L
  events : List CoreEvent
deriving Repr, DecidableEq

/-- `ClassifierCore.on_forward_batch(step, inputs, targets)`.
`forward` is the wrapped model's forward pass, `crit` the criterion,
`optimStep` the combined effect of `zero_grad`/`backward`/`optim.step`
on the parameters. On non-prediction steps the loss is computed, the
meter updated and `batch_logs` written; only the training branch runs
the optimizer; `epoch_logs` receives `"train loss"` or `"valid loss"`
mapped to the meter average. -/
def on_forward_batch {P I L T : Type} (forward : P → I → L) (crit : L → Option T → ℚ)
    (optimStep : P → ℚ → P) (step : Step) (inputs : I) (targets : Option T)
    (s : CoreState P) : CoreResult P L :=
  let logits := forward s.params inputs
  if step ≠ Step.prediction then
    let loss := crit logits targets
    let meter := s.meter.update loss
    let logs := { s.logs with batch_logs := some loss }
    if step = Step.training then
      let params := optimStep s.params loss
      let logs := { logs with epoch_logs := some ("train loss", meter.avg) }
      { state := { params := params, meter := meter, logs := logs }
        logits := logits
        events := [CoreEvent.meterUpdate, CoreEvent.batchLogWrite, CoreEvent.optimZeroGrad,
                   CoreEvent.lossBackward, CoreEvent.optimStep, CoreEvent.epochLogWrite] }
    else
      let logs := { logs with epoch_logs := some ("valid loss", meter.avg) }
      { state := { params := s.params, meter := meter, logs := logs }
        logits := logits
        events := [CoreEvent.meterUpdate, CoreEvent.batchLogWrite, CoreEvent.epochLogWrite] }
  else
    { state := s, logits := logits, events := [] }

/-! ### SRGAN (torchlight/nn/models/srgan.py, lines 125-163)

`SRGAN.forward(data, target)` runs the full adversarial batch: generator
forward, discriminator scores on real and fake, discriminator loss
`1 - d_real_out + d_fake_out`, `_optimize(netD, …, retain_graph=True)`,
then the generator loss built from the *pre-step* `d_fake_out`, and
`_optimize(netG, …)`. There is no `step` argument: the method behaves the
same on training and validation passes (the source carries
`# TODO don't optimize in val/test pass`).

The networks are abstracted: `netG` maps generator parameters and input to
an image, `netD` maps discriminator parameters and an image to the list of
per-sample scores (whose mean the code takes), `dStep`/`gStep` are the
parameter effects of `zero_grad`/`backward`/`optimizer.step`, and
`genLoss` is `GeneratorLoss()(d_fake_out, gen_img, target)`. -/

/-- `.mean()` of a batch of scores. -/
def listMean (l : List ℚ) : ℚ := l.sum / l.length

inductive GanEvent
  | dZeroGrad
  | dBackward (retain : Bool)
  | dOptimStep
  | gZeroGrad
  | gBackward (retain : Bool)
  | gOptimStep
deriving Repr, DecidableEq

/-- Whether an event belongs to the discriminator update. -/
def GanEvent.isD : GanEvent → Bool
  | .dZeroGrad => true
  | .dBackward _ => true
  | .dOptimStep => true
  | _ => false

/-- Whether an event belongs to the generator update. -/
def GanEvent.isG : GanEvent → Bool
  | .gZeroGrad => true
  | .gBackward _ => true
  | .gOptimStep => true
  | _ => false

structure SRGANState (GP DP : Type) where
  gp : GP
  dp : DP
deriving Repr, DecidableEq

structure SRGANResult (GP DP B : Type) where
  state : SRGANState GP DP
  genImg : B
  dRealOut : ℚ
  dFakeOut : ℚ
  dLoss : ℚ
  gLoss : ℚ
  events : List GanEvent
deriving Repr, DecidableEq

/-- `SRGAN._optimize(model, optim, loss, retain_graph)` for the
discriminator: `model.zero_grad(); loss.backward(retain_graph); optim.step()`. -/
def dOptimize {DP : Type} (dStep : DP → ℚ → DP) (dp : DP) (loss : ℚ) (retain : Bool) :
    DP × List GanEvent :=
  (dStep dp loss, [GanEvent.dZeroGrad, GanEvent.dBackward retain, GanEvent.dOptimStep])

/-- `SRGAN._optimize` for the generator. -/
def gOptimize {GP : Type} (gStep : GP → ℚ → GP) (gp : GP) (loss : ℚ) (retain : Bool) :
    GP × List GanEvent :=
  (gStep gp loss, [GanEvent.gZeroGrad, GanEvent.gBackward retain, GanEvent.gOptimStep])

/-- `SRGAN.forward(self, data, target)` (srgan.py lines 147-163). -/
def SRGAN.forward {GP DP A B : Type} (netG : GP → A → B) (netD : DP → B → List ℚ)
    (genLoss : ℚ → B → B → ℚ) (dStep : DP → ℚ → DP) (gStep : GP → ℚ → GP)
    (st : SRGANState GP DP) (data : A) (target : B) : SRGANResult GP DP B :=
  let gen_img := netG st.gp data
  let d_real_out := listMean (netD st.dp target)
  let d_fake_out := listMean (netD st.dp gen_img)
  let d_loss := 1 - d_real_out + d_fake_out
  let dRes := dOptimize dStep st.dp d_loss true
  let g_loss := genLoss d_fake_out gen_img target
  let gRes := gOptimize gStep st.gp g_loss false
  { state := { gp := gRes.1, dp := dRes.1 }
    genImg := gen_img
    dRealOut := d_real_out
    dFakeOut := d_fake_out
    dLoss := d_loss
    gLoss := g_loss
    events := dRes.2 ++ gRes.2 }

/-! ### Log mappings

The `logs` dictionaries exchanged between the Learner, the cores and the
callbacks map string keys to heterogeneous values: strings (`"step"`),
numbers, `None`, or nested dictionaries (`"epoch_logs"`, `"models"`).
Python truthiness (`not v`) is false exactly on `""`, `0`, `None` and the
empty dict. Dictionaries are modelled as association lists in insertion
order. -/

inductive LogVal
  | str (s : String)
  | num (q : ℚ)
  | nil
  | dict (entries : List (String × ℚ))
deriving Repr, DecidableEq

/-- Python truthiness of a log value: `bool(v)`. -/
def LogVal.truthy : LogVal → Bool
  | .str s => s ≠ ""
  | .num q => q ≠ 0
  | .nil => false
  | .dict entries => !entries.isEmpty

/-- A `logs` dictionary: keys to values, in insertion order. -/
def Logs := List (String × LogVal)

instance : DecidableEq Logs := inferInstanceAs (DecidableEq (List (String × LogVal)))

instance : EmptyCollection Logs := ⟨([] : List (String × LogVal))⟩

/-- `logs[k]` / `logs.get(k)`: first binding of `k`. -/
def Logs.lookup (l : Logs) (k : String) : Option LogVal :=
  List.lookup k l

/-! ### TrainCallbackList (torchlight/nn/train_callbacks.py, lines 31-107)

Each lifecycle hook does `logs = logs or {}` and then runs
`for callback in self.callbacks: callback.on_…(…, logs)`, discarding every
return value. A callback is modelled as a record of six hook functions,
each mapping the hook arguments and a world state `σ` to a new world state
paired with a return value `ρ` (which the dispatcher must ignore, as the
Python `for` body does). -/

structure TrainCallback (σ ρ : Type) where
  on_epoch_begin : ℕ → Logs → σ → σ × ρ
  on_epoch_end : ℕ → Logs → σ → σ × ρ
  on_batch_begin : ℕ → Logs → σ → σ × ρ
  on_batch_end : ℕ → Logs → σ → σ × ρ
  on_train_begin : Logs → σ → σ × ρ
  on_train_end : Logs → σ → σ × ρ

/-- `logs = logs or {}`: `None` and the empty dict both become `{}`. -/
def Logs.orEmpty (l : Option Logs) : Logs :=
  match l with
  | none => (∅ : Logs)
  | some v => if (v : List (String × LogVal)).isEmpty then (∅ : Logs) else v

namespace TrainCallbackList

variable {σ ρ : Type}

/-- `TrainCallbackList.on_epoch_begin(epoch, logs)`. -/
def on_epoch_begin (cbs : List (TrainCallback σ ρ)) (epoch : ℕ) (logs : Option Logs)
    (s : σ) : σ :=
  let l := Logs.orEmpty logs
  cbs.foldl (fun st c => (c.on_epoch_begin epoch l st).1) s

/-- `TrainCallbackList.on_epoch_end(epoch, logs)`. -/
def on_epoch_end (cbs : List (TrainCallback σ ρ)) (epoch : ℕ) (logs : Option Logs)
    (s : σ) : σ :=
  let l := Logs.orEmpty logs
  cbs.foldl (fun st c => (c.on_epoch_end epoch l st).1) s

/-- `TrainCallbackList.on_batch_begin(batch, logs)`. -/
def on_batch_begin (cbs : List (TrainCallback σ ρ)) (batch : ℕ) (logs : Option Logs)
    (s : σ) : σ :=
  let l := Logs.orEmpty logs
  cbs.foldl (fun st c => (c.on_batch_begin batch l st).1) s

/-- `TrainCallbackList.on_batch_end(batch, logs)`. -/
def on_batch_end (cbs : List (TrainCallback σ ρ)) (batch : ℕ) (logs : Option Logs)
    (s : σ) : σ :=
  let l := Logs.orEmpty logs
  cbs.foldl (fun st c => (c.on_batch_end batch l st).1) s

/-- `TrainCallbackList.on_train_begin(logs)`. -/
def on_train_begin (cbs : List (TrainCallback σ ρ)) (logs : Option Logs) (s : σ) : σ :=
  let l := Logs.orEmpty logs
  cbs.foldl (fun st c => (c.on_train_begin l st).1) s

/-- `TrainCallbackList.on_train_end(logs)`. -/
def on_train_end (cbs : List (TrainCallback σ ρ)) (logs : Option Logs) (s : σ) : σ :=
  let l := Logs.orEmpty logs
  cbs.foldl (fun st c => (c.on_train_end l st).1) s

end TrainCallbackList

/-- One recorded invocation: hook name, callback identifier, the numeric
index passed (`none` for the train-level hooks), and the logs received. -/
structure Invocation where
  hook : String
  cb : ℕ
  idx : Option ℕ
  logs : Logs
deriving DecidableEq

/-- An instrumentation callback: every hook appends a record of its own
invocation to the world state and returns `()`. -/
def recorder (i : ℕ) : TrainCallback (List Invocation) Unit where
  on_epoch_begin := fun e l tr => (tr ++ [⟨"on_epoch_begin", i, some e, l⟩], ())
  on_epoch_end := fun e l tr => (tr ++ [⟨"on_epoch_end", i, some e, l⟩], ())
  on_batch_begin := fun b l tr => (tr ++ [⟨"on_batch_begin", i, some b, l⟩], ())
  on_batch_end := fun b l tr => (tr ++ [⟨"on_batch_end", i, some b, l⟩], ())
  on_train_begin := fun l tr => (tr ++ [⟨"on_train_begin", i, none, l⟩], ())
  on_train_end := fun l tr => (tr ++ [⟨"on_train_end", i, none, l⟩], ())

/-- Replace a callback's return values by `f` of them, leaving its effect
on the world state untouched. -/
def mapRet {σ ρ ρ' : Type} (f : ρ → ρ') (c : TrainCallback σ ρ) : TrainCallback σ ρ' where
  on_epoch_begin := fun e l s => ((c.on_epoch_begin e l s).1, f (c.on_epoch_begin e l s).2)
  on_epoch_end := fun e l s => ((c.on_epoch_end e l s).1, f (c.on_epoch_end e l s).2)
  on_batch_begin := fun b l s => ((c.on_batch_begin b l s).1, f (c.on_batch_begin b l s).2)
  on_batch_end := fun b l s => ((c.on_batch_end b l s).1, f (c.on_batch_end b l s).2)
  on_train_begin := fun l s => ((c.on_train_begin l s).1, f (c.on_train_begin l s).2)
  on_train_end := fun l s => ((c.on_train_end l s).1, f (c.on_train_end l s).2)

/-! ### ReduceLROnPlateau (both train_callbacks.py files, identical bodies)

`on_epoch_end` reads `logs["step"]` and, when it equals `'training'`,
iterates over *all* items of the logs dict. In `"valid"` mode it reacts
only to the key `'val_loss'`: a falsy value raises `ValueError`, a truthy
one steps the wrapped scheduler. In any other mode it steps the scheduler
on the key `'train_loss'`. The scheduler steps performed are returned as a
trace of `(value, epoch)` pairs. -/

inductive CallbackError
  | keyError (k : String)
  | valueError (msg : String)
deriving Repr, DecidableEq

/-- The `for k, v in logs.items():` loop body of
`ReduceLROnPlateau.on_epoch_end`. -/
def plateauLoop (loss_step : String) (epoch : ℕ) :
    List (String × LogVal) → Except CallbackError (List (LogVal × ℕ))
  | [] => Except.ok []
  | (k, v) :: rest =>
    if loss_step = "valid" then
      if k = "val_loss" then
        if !v.truthy then
          Except.error (CallbackError.valueError
            "ReduceLROnPlateau: No validation loss has been found")
        else do
          let s ← plateauLoop loss_step epoch rest
          Except.ok ((v, epoch) :: s)
      else plateauLoop loss_step epoch rest
    else
      if k = "train_loss" then do
        let s ← plateauLoop loss_step epoch rest
        Except.ok ((v, epoch) :: s)
      else plateauLoop loss_step epoch rest

/-- `ReduceLROnPlateau.on_epoch_end(epoch, logs)`. -/
def ReduceLROnPlateau.on_epoch_end (loss_step : String) (epoch : ℕ) (logs : Logs) :
    Except CallbackError (List (LogVal × ℕ)) :=
  match logs.lookup "step" with
  | none => Except.error (CallbackError.keyError "step")
  | some stepv =>
    if stepv = LogVal.str "training" then
      plateauLoop loss_step epoch logs
    else Except.ok []

/-! ### ModelSaverCallback — saving

`on_epoch_end` in both variants saves only on `step == 'training'` and when
`epoch % every_n_epoch == 0 or epoch == epochs`. The torchlite variant
(torch/train_callbacks.py lines 135-143) writes two files per model:
`<name>_epoch-<epoch>.pth` and then `<name>.pth`; the torchlight variant
(nn/train_callbacks.py lines 268-274) writes only `<name>.pth`. The model
names are the keys of `logs['models']`, which `ClassifierCore.get_models`
populates with the model's class name. The result is the ordered list of
`(path, blob)` writes. -/

/-- `os.path.join(dir, name)` for a directory path with no trailing slash. -/
def joinPath (dir name : String) : String := dir ++ "/" ++ name

/-- torchlite `ModelSaverCallback.on_epoch_end`. -/
def saverLiteOnEpochEnd {M : Type} (to_dir : String) (epochs every_n_epoch : ℕ)
    (step : String) (epoch : ℕ) (models : List (String × M)) : List (String × M) :=
  if step = "training" then
    if epoch % every_n_epoch = 0 ∨ epoch = epochs then
      models.flatMap (fun km =>
        [(joinPath to_dir (km.1 ++ "_epoch-" ++ toString epoch ++ ".pth"), km.2),
         (joinPath to_dir (km.1 ++ ".pth"), km.2)])
    else []
  else []

/-- torchlight `ModelSaverCallback.on_epoch_end`. -/
def saverLightOnEpochEnd {M : Type} (to_dir : String) (epochs every_n_epoch : ℕ)
    (step : String) (epoch : ℕ) (models : List (String × M)) : List (String × M) :=
  if step = "training" then
    if epoch % every_n_epoch = 0 ∨ epoch = epochs then
      models.map (fun km => (joinPath to_dir (km.1 ++ ".pth"), km.2))
    else []
  else []

/-! ### ModelSaverCallback — restoring

Models are represented by their class names; `files` is the list of file
basenames present in `from_dir` (so `from_dir` is a directory). Both
variants loop over the models and test `os.path.isfile` on
`<ClassName>.pth`. torchlite `restore_models` loads the matched *file*,
counts it, and asserts `i == len(models)`; `loads` records the paths
handed to `torch.load`, `ok` whether the assert passed. torchlight
`restore_model` instead executes `model.load_state_dict(torch.load(from_dir))`
inside the `isfile` branch: `torch.load` is handed the directory itself
and raises `IsADirectoryError` there, before `i += 1` can run, so any
matching file aborts the loop with that exception; when no file matches,
the loop ends with `i = 0` and the final `assert i+1 == len(models)`
passes exactly for a single-model list. -/

structure RestoreResult where
  loads : List String
  restored : ℕ
  ok : Bool
deriving Repr, DecidableEq

/-- torchlite `ModelSaverCallback.restore_models(models, from_dir)`
(torch/train_callbacks.py lines 85-112). -/
def restore_models (models : List String) (from_dir : String) (files : List String) :
    RestoreResult :=
  let r := models.foldl
    (fun (acc : ℕ × List String) m =>
      if (m ++ ".pth") ∈ files then
        (acc.1 + 1, acc.2 ++ [joinPath from_dir (m ++ ".pth")])
      else acc)
    (0, [])
  { loads := r.2, restored := r.1, ok := r.1 = models.length }

/-- The `for model in models:` loop of torchlight `restore_model`. The
`isfile` branch runs `model.load_state_dict(torch.load(from_dir))`:
`torch.load` opens the directory `from_dir` and raises
`IsADirectoryError`, so the `i += 1` after it is unreachable and `i`
stays at its starting value on the no-match path. -/
def restoreModelLoop (from_dir : String) (files : List String) (i : ℕ) :
    List String → Except String ℕ
  | [] => Except.ok i
  | m :: rest =>
    if (m ++ ".pth") ∈ files then
      Except.error ("IsADirectoryError: " ++ from_dir)
    else restoreModelLoop from_dir files i rest

/-- torchlight `ModelSaverCallback.restore_model(models, from_dir)`
(nn/train_callbacks.py lines 248-266): the loop above, then
`assert i+1 == len(models)` and the success print. -/
def restore_model (models : List String) (from_dir : String) (files : List String) :
    Except String Unit :=
  match restoreModelLoop from_dir files 0 models with
  | Except.error e => Except.error e
  | Except.ok i =>
    if i + 1 = models.length then Except.ok ()
    else Except.error
      "AssertionError: Not all models were restored. Please check that your passed models and files match"

/-! ### BaseEncoder.transform (torchlite/pandas/tabular_encoder.py, 102-147)

A DataFrame is a list of columns, each with a name, a numeric-dtype flag
and a has-NaN flag. The subclass hooks `_perform_na_transform` and
`_perform_categ_transform` and the optional scaler are abstract DataFrame
transformations; `transform` selects the fitted feature columns of `X` in
`all_feat` order, applies the hooks, and then runs the three checks of the
source in order: non-numeric columns, the NaN check
(`nan_ratio.all() > 0`, i.e. *every* column has a NaN), and
`_check_integrity` against the fitted column list. -/

structure Col where
  name : String
  numeric : Bool
  hasNa : Bool
deriving Repr, DecidableEq

inductive TransformError
  | nonNumeric (cols : List String)
  | nanFound
  | colsMismatch (diff : List String)
  | colsOrder
deriving Repr, DecidableEq

/-- `BaseEncoder._get_all_non_numeric(df)`. -/
def getAllNonNumeric (df : List Col) : List String :=
  (df.filter (fun c => !c.numeric)).map (fun c => c.name)

/-- `BaseEncoder._check_integrity(df)`: symmetric difference of the fitted
column set and `df`'s columns must be empty, and the orders must agree. -/
def checkIntegrity (fitted : List String) (df : List Col) : Except TransformError Bool :=
  let names := df.map (fun c => c.name)
  let diff := fitted.filter (fun c => c ∉ names) ++ names.filter (fun n => n ∉ fitted)
  if diff ≠ [] then Except.error (TransformError.colsMismatch diff)
  else if fitted = names then Except.ok true
  else Except.error TransformError.colsOrder

/-- The encoding pipeline of `BaseEncoder.transform` before its checks:
column selection `X[[feat for feat in all_feat if feat in X.columns]]`,
optional NA fixing, categorical transform, optional scaling. -/
def encodedDF (all_feat : List String) (fix_missing : Bool)
    (naT catT : List Col → List Col) (scaler : Option (List Col → List Col))
    (X : List Col) : List Col :=
  let df := all_feat.filterMap (fun f => X.find? (fun c => c.name = f))
  let df := if fix_missing then naT df else df
  let df := catT df
  match scaler with
  | some s => s df
  | none => df

/-- `BaseEncoder.transform(X)`. -/
def BaseEncoder.transform (all_feat : List String) (fix_missing : Bool)
    (naT catT : List Col → List Col) (scaler : Option (List Col → List Col))
    (fittedCols : List String) (X : List Col) : Except TransformError (List Col) :=
  let df := encodedDF all_feat fix_missing naT catT scaler X
  let non_num_cols := getAllNonNumeric df
  if non_num_cols ≠ [] then Except.error (TransformError.nonNumeric non_num_cols)
  else if fix_missing && df.all (fun c => c.hasNa) then Except.error TransformError.nanFound
  else do
    let _ ← checkIntegrity fittedCols df
    Except.ok df

/-! ## Supporting lemmas -/

/-- Folding `AverageMeter.update` over a list of values adds the list
length to the count and the index-weighted values to the sum (weights
continue from the starting count). -/
theorem foldl_update_count_sum (vs : List ℚ) (m : AverageMeter) :
    (vs.foldl AverageMeter.update m).count = m.count + vs.length ∧
    (vs.foldl AverageMeter.update m).sum =
      m.sum + ∑ i ∈ Finset.range vs.length, ((m.count : ℚ) + i + 1) * vs.getD i 0 := by
  induction vs generalizing m with
  | nil => simp
  | cons v t ih =>
    obtain ⟨hc, hs⟩ := ih (m.update v)
    refine ⟨?_, ?_⟩
    · rw [List.foldl_cons, hc]
      simp [AverageMeter.update]
      omega
    · rw [List.foldl_cons, hs]
      have hsum : ∑ i ∈ Finset.range t.length,
          (((m.update v).count : ℚ) + i + 1) * t.getD i 0
          = ∑ i ∈ Finset.range t.length, ((m.count : ℚ) + (i + 1) + 1) * t.getD i 0 := by
        refine Finset.sum_congr rfl fun i _ => ?_
        simp only [AverageMeter.update]
        push_cast
        ring
      rw [hsum]
      rw [List.length_cons, Finset.sum_range_succ']
      simp [AverageMeter.update]
      ring

/-- Appending one element per list item under a `foldl` is a `map`. -/
theorem foldl_snoc {α E : Type} (xs : List α) (g : α → E) (tr : List E) :
    xs.foldl (fun st x => st ++ [g x]) tr = tr ++ xs.map g := by
  induction xs generalizing tr with
  | nil => simp
  | cons x t ih => simp [List.foldl_cons, ih]

/-- `logs or {}` leaves an actual dictionary unchanged. -/
theorem orEmpty_some (l : Logs) : Logs.orEmpty (some l) = l := by
  show (if (l : List (String × LogVal)).isEmpty then (∅ : Logs) else l) = l
  rcases l with _ | ⟨p, t⟩
  · rfl
  · rfl

/-- The torchlite restore counter equals the number of models whose
class-named file exists, continuing from any accumulator. -/
theorem restore_count_foldl (models : List String) (from_dir : String)
    (files : List String) (n : ℕ) (l : List String) :
    (models.foldl
      (fun (acc : ℕ × List String) m =>
        if (m ++ ".pth") ∈ files then
          (acc.1 + 1, acc.2 ++ [joinPath from_dir (m ++ ".pth")])
        else acc)
      (n, l)).1 = n + (models.countP (fun m => decide ((m ++ ".pth") ∈ files))) := by
  induction models generalizing n l with
  | nil => simp
  | cons m t ih =>
    rw [List.foldl_cons]
    by_cases h : (m ++ ".pth") ∈ files
    · rw [if_pos h, ih, List.countP_cons]
      simp [h]
      omega
    · rw [if_neg h, ih, List.countP_cons]
      simp [h]

/-- torchlite `restore_models` passes its assertion exactly when every
model in the list found its class-named file on disk. -/
theorem restore_models_ok_iff (models : List String) (from_dir : String)
    (files : List String) :
    (restore_models models from_dir files).ok = true ↔
      ∀ m ∈ models, (m ++ ".pth") ∈ files := by
  show decide _ = true ↔ _
  rw [decide_eq_true_iff, restore_count_foldl, Nat.zero_add]
  constructor
  · intro h m hm
    have := List.countP_eq_length.mp h m hm
    simpa using this
  · intro h
    exact List.countP_eq_length.mpr fun m hm => by simpa using h m hm

/-! ## Claim theorems -/

/-- C9: `AverageMeter.avg` after updates v₁…vₙ (n ≥ 1) is
(∑ᵢ i·vᵢ)/n with 1-based index weights; a meter with zero updates divides
by zero (`none`); and `ClassifierCore.on_forward_batch` reports exactly
this meter average under `"train loss"` / `"valid loss"` in `epoch_logs`. -/
theorem averageMeter_index_weighted_avg (vs : List ℚ) (h : vs ≠ []) :
    (vs.foldl AverageMeter.update AverageMeter.init).avg
      = some ((∑ i ∈ Finset.range vs.length, ((i : ℚ) + 1) * vs.getD i 0) / vs.length)
    ∧ AverageMeter.init.avg = none
    ∧ ∀ (P I L T : Type) (forward : P → I → L) (crit : L → Option T → ℚ)
        (optimStep : P → ℚ → P) (inputs : I) (targets : Option T) (s : CoreState P),
        (on_forward_batch forward crit optimStep Step.training inputs targets
            s).state.logs.epoch_logs
          = some ("train loss", (s.meter.update (crit (forward s.params inputs) targets)).avg)
        ∧ (on_forward_batch forward crit optimStep Step.validation inputs targets
            s).state.logs.epoch_logs
          = some ("valid loss", (s.meter.update (crit (forward s.params inputs) targets)).avg) := by
  obtain ⟨hc, hs⟩ := foldl_update_count_sum vs AverageMeter.init
  refine ⟨?_, rfl, fun P I L T forward crit optimStep inputs targets s => ⟨rfl, rfl⟩⟩
  have hlen : vs.length ≠ 0 := fun hl => h (List.length_eq_zero.mp hl)
  rw [AverageMeter.avg, hc]
  simp only [AverageMeter.init] at hc hs ⊢
  rw [if_neg (by omega)]
  rw [hs]
  congr 1
  rw [Nat.zero_add] at hc
  have : ∑ i ∈ Finset.range vs.length, (((0 : ℕ) : ℚ) + i + 1) * vs.getD i 0
      = ∑ i ∈ Finset.range vs.length, ((i : ℚ) + 1) * vs.getD i 0 := by
    refine Finset.sum_congr rfl fun i _ => ?_
    push_cast
    ring
  rw [zero_add, this]
  norm_num

/-- C9 witness: two updates 3 then 5 give average (1·3 + 2·5)/2. -/
theorem averageMeter_index_weighted_avg_witness :
    (([(3 : ℚ), 5]).foldl AverageMeter.update AverageMeter.init).avg
      = some ((∑ i ∈ Finset.range ([(3 : ℚ), 5]).length,
          ((i : ℚ) + 1) * ([(3 : ℚ), 5]).getD i 0) / ([(3 : ℚ), 5]).length) :=
  (averageMeter_index_weighted_avg [3, 5] (by simp)).1

/-- C10: a `"prediction"` forward batch returns the model's logits and
leaves the whole core state (logs, meter, parameters) unchanged, with no
loss/log/optimizer events — including when `targets` is `None`. -/
theorem prediction_step_is_pure :
    ∀ (P I L T : Type) (forward : P → I → L) (crit : L → Option T → ℚ)
      (optimStep : P → ℚ → P) (inputs : I) (targets : Option T) (s : CoreState P),
      (on_forward_batch forward crit optimStep Step.prediction inputs targets s).state = s
      ∧ (on_forward_batch forward crit optimStep Step.prediction inputs targets s).logits
          = forward s.params inputs
      ∧ (on_forward_batch forward crit optimStep Step.prediction inputs targets s).events
          = [] :=
  fun _ _ _ _ _ _ _ _ _ _ => ⟨rfl, rfl, rfl⟩

/-- C3: within one adversarial batch the event trace is exactly
discriminator zero-grad/backward(retain)/step followed by generator
zero-grad/backward/step, so every discriminator update event strictly
precedes every generator update event, the discriminator backward pass
retains the graph, and the generator loss reuses the pre-step
discriminator score of the generated image. -/
theorem srgan_discriminator_before_generator :
    ∀ (GP DP A B : Type) (netG : GP → A → B) (netD : DP → B → List ℚ)
      (genLoss : ℚ → B → B → ℚ) (dStep : DP → ℚ → DP) (gStep : GP → ℚ → GP)
      (st : SRGANState GP DP) (data : A) (target : B),
      (SRGAN.forward netG netD genLoss dStep gStep st data target).events
        = [GanEvent.dZeroGrad, GanEvent.dBackward true, GanEvent.dOptimStep,
           GanEvent.gZeroGrad, GanEvent.gBackward false, GanEvent.gOptimStep]
      ∧ ((SRGAN.forward netG netD genLoss dStep gStep st data target).events.takeWhile
            GanEvent.isD).length = 3
      ∧ ((SRGAN.forward netG netD genLoss dStep gStep st data target).events.dropWhile
            GanEvent.isD).all GanEvent.isG = true
      ∧ (SRGAN.forward netG netD genLoss dStep gStep st data target).gLoss
          = genLoss (listMean (netD st.dp (netG st.gp data))) (netG st.gp data) target :=
  fun _ _ _ _ _ _ _ _ _ _ _ _ => ⟨rfl, rfl, rfl, rfl⟩

/-- C4: the discriminator loss of an adversarial batch, computed before
the discriminator optimizer step, is
`1 - mean(D(target)) + mean(D(G(data)))` with both scores taken at the
pre-step discriminator parameters. -/
theorem srgan_d_loss_formula :
    ∀ (GP DP A B : Type) (netG : GP → A → B) (netD : DP → B → List ℚ)
      (genLoss : ℚ → B → B → ℚ) (dStep : DP → ℚ → DP) (gStep : GP → ℚ → GP)
      (st : SRGANState GP DP) (data : A) (target : B),
      (SRGAN.forward netG netD genLoss dStep gStep st data target).dLoss
        = 1 - listMean (netD st.dp target) + listMean (netD st.dp (netG st.gp data)) :=
  fun _ _ _ _ _ _ _ _ _ _ _ _ => rfl

/-- C5 (code bug): `SRGAN.forward` has no step argument and performs the
discriminator and generator optimizer steps on every call — validation
passes included (the source carries `TODO don't optimize in val/test
pass`). A concrete instantiation shows discriminator parameters change. -/
theorem srgan_forward_always_optimizes :
    (∀ (GP DP A B : Type) (netG : GP → A → B) (netD : DP → B → List ℚ)
       (genLoss : ℚ → B → B → ℚ) (dStep : DP → ℚ → DP) (gStep : GP → ℚ → GP)
       (st : SRGANState GP DP) (data : A) (target : B),
       GanEvent.dOptimStep ∈ (SRGAN.forward netG netD genLoss dStep gStep st data target).events
       ∧ GanEvent.gOptimStep ∈ (SRGAN.forward netG netD genLoss dStep gStep st data target).events)
    ∧ (SRGAN.forward (fun (_ : ℚ) x => x) (fun p y => [p + y]) (fun d _ _ => d)
        (fun p _ => p - 1) (fun p _ => p - 1)
        { gp := (0 : ℚ), dp := (0 : ℚ) } (0 : ℚ) (1 : ℚ)).state.dp ≠ (0 : ℚ) := by
  refine ⟨fun GP DP A B netG netD genLoss dStep gStep st data target => ⟨?_, ?_⟩, ?_⟩
  · simp [SRGAN.forward, dOptimize, gOptimize]
  · simp [SRGAN.forward, dOptimize, gOptimize]
  · norm_num [SRGAN.forward, dOptimize, gOptimize]

/-- C6: each `TrainCallbackList` lifecycle hook invokes every registered
callback exactly once, in registration order, with the same index and logs
mapping (shown by the invocation trace of instrumented callbacks), and the
callbacks' return values cannot influence the loop (replacing every return
value by any function of it leaves each dispatch unchanged). -/
theorem trainCallbackList_order_and_ignored_returns :
    (∀ (ids : List ℕ) (epoch : ℕ) (logs : Logs) (tr : List Invocation),
      TrainCallbackList.on_epoch_begin (ids.map recorder) epoch (some logs) tr
        = tr ++ ids.map (fun i => ⟨"on_epoch_begin", i, some epoch, logs⟩)
      ∧ TrainCallbackList.on_epoch_end (ids.map recorder) epoch (some logs) tr
        = tr ++ ids.map (fun i => ⟨"on_epoch_end", i, some epoch, logs⟩)
      ∧ TrainCallbackList.on_batch_begin (ids.map recorder) epoch (some logs) tr
        = tr ++ ids.map (fun i => ⟨"on_batch_begin", i, some epoch, logs⟩)
      ∧ TrainCallbackList.on_batch_end (ids.map recorder) epoch (some logs) tr
        = tr ++ ids.map (fun i => ⟨"on_batch_end", i, some epoch, logs⟩)
      ∧ TrainCallbackList.on_train_begin (ids.map recorder) (some logs) tr
        = tr ++ ids.map (fun i => ⟨"on_train_begin", i, none, logs⟩)
      ∧ TrainCallbackList.on_train_end (ids.map recorder) (some logs) tr
        = tr ++ ids.map (fun i => ⟨"on_train_end", i, none, logs⟩))
    ∧ (∀ (σ ρ ρ' : Type) (f : ρ → ρ') (cbs : List (TrainCallback σ ρ)) (n : ℕ)
        (logs : Option Logs) (s : σ),
      TrainCallbackList.on_epoch_begin (cbs.map (mapRet f)) n logs s
        = TrainCallbackList.on_epoch_begin cbs n logs s
      ∧ TrainCallbackList.on_epoch_end (cbs.map (mapRet f)) n logs s
        = TrainCallbackList.on_epoch_end cbs n logs s
      ∧ TrainCallbackList.on_batch_begin (cbs.map (mapRet f)) n logs s
        = TrainCallbackList.on_batch_begin cbs n logs s
      ∧ TrainCallbackList.on_batch_end (cbs.map (mapRet f)) n logs s
        = TrainCallbackList.on_batch_end cbs n logs s
      ∧ TrainCallbackList.on_train_begin (cbs.map (mapRet f)) logs s
        = TrainCallbackList.on_train_begin cbs logs s
      ∧ TrainCallbackList.on_train_end (cbs.map (mapRet f)) logs s
        = TrainCallbackList.on_train_end cbs logs s) := by
  constructor
  · intro ids epoch logs tr
    have hor : Logs.orEmpty (some logs) = logs := orEmpty_some logs
    refine ⟨?_, ?_, ?_, ?_, ?_, ?_⟩ <;>
      simp only [TrainCallbackList.on_epoch_begin, TrainCallbackList.on_epoch_end,
        TrainCallbackList.on_batch_begin, TrainCallbackList.on_batch_end,
        TrainCallbackList.on_train_begin, TrainCallbackList.on_train_end, hor,
        List.foldl_map, recorder] <;>
      exact foldl_snoc ids _ tr
  · intro σ ρ ρ' f cbs n logs s
    refine ⟨?_, ?_, ?_, ?_, ?_, ?_⟩ <;>
      simp only [TrainCallbackList.on_epoch_begin, TrainCallbackList.on_epoch_end,
        TrainCallbackList.on_batch_begin, TrainCallbackList.on_batch_end,
        TrainCallbackList.on_train_begin, TrainCallbackList.on_train_end,
        List.foldl_map, mapRet]

/-- C6 witness: two recorder callbacks on a concrete epoch-begin
dispatch are invoked once each, in order, with identical arguments. -/
theorem trainCallbackList_order_witness :
    TrainCallbackList.on_epoch_begin [recorder 0, recorder 1] 1
        (some [("step", LogVal.str "training")]) []
      = [⟨"on_epoch_begin", 0, some 1, [("step", LogVal.str "training")]⟩,
         ⟨"on_epoch_begin", 1, some 1, [("step", LogVal.str "training")]⟩] := by
  have h := (trainCallbackList_order_and_ignored_returns.1 [0, 1] 1
    [("step", LogVal.str "training")] []).1
  simpa using h

/-- The plateau loop in `"valid"` mode does nothing over entries without
the key `'val_loss'`. -/
theorem plateauLoop_no_val_loss (epoch : ℕ) (l : List (String × LogVal))
    (h : ∀ p ∈ l, p.1 ≠ "val_loss") :
    plateauLoop "valid" epoch l = Except.ok [] := by
  induction l with
  | nil => rfl
  | cons p t ih =>
    obtain ⟨k, v⟩ := p
    have hk : k ≠ "val_loss" := h (k, v) (List.mem_cons_self _ _)
    simp only [plateauLoop, if_pos rfl, if_neg hk]
    exact ih fun q hq => h q (List.mem_cons_of_mem _ hq)

/-- The plateau loop in `"valid"` mode raises as soon as it reaches a
first `'val_loss'` entry whose value is falsy. -/
theorem plateauLoop_falsy_val_loss (epoch : ℕ) (l : List (String × LogVal)) (v : LogVal)
    (h : List.lookup "val_loss" l = some v) (hv : v.truthy = false) :
    plateauLoop "valid" epoch l
      = Except.error (CallbackError.valueError
          "ReduceLROnPlateau: No validation loss has been found") := by
  induction l with
  | nil => cases h
  | cons p t ih =>
    obtain ⟨k, w⟩ := p
    by_cases hk : k = "val_loss"
    · subst hk
      rw [List.lookup_cons, beq_self_eq_true] at h
      obtain rfl : w = v := by injection h
      simp only [plateauLoop, if_pos rfl, hv]
      rfl
    · rw [List.lookup_cons, beq_eq_false_iff_ne.mpr (Ne.symm hk)] at h
      simp only [plateauLoop, if_pos rfl, if_neg hk]
      exact ih h

/-- C2 amended: with `loss_step="valid"` and a `'training'` epoch end, the
callback silently completes with no scheduler step when no `'val_loss'`
key is present in the logs, and raises the descriptive `ValueError` only
when a `'val_loss'` entry is reached whose value is falsy. -/
theorem plateau_raises_only_on_present_falsy_val_loss (epoch : ℕ)
    (logs : List (String × LogVal))
    (hstep : Logs.lookup logs "step" = some (LogVal.str "training")) :
    ((∀ p ∈ logs, p.1 ≠ "val_loss") →
      ReduceLROnPlateau.on_epoch_end "valid" epoch logs = Except.ok [])
    ∧ (∀ v, List.lookup "val_loss" logs = some v →
        v.truthy = false →
      ReduceLROnPlateau.on_epoch_end "valid" epoch logs
        = Except.error (CallbackError.valueError
            "ReduceLROnPlateau: No validation loss has been found")) := by
  constructor
  · intro habs
    simp only [ReduceLROnPlateau.on_epoch_end, hstep, if_pos rfl]
    exact plateauLoop_no_val_loss epoch logs habs
  · intro v hv hfalsy
    simp only [ReduceLROnPlateau.on_epoch_end, hstep, if_pos rfl]
    exact plateauLoop_falsy_val_loss epoch logs v hv hfalsy

/-- C2 witness: a falsy `val_loss` entry at a training epoch end raises
the descriptive error. -/
theorem plateau_raises_witness :
    ReduceLROnPlateau.on_epoch_end "valid" 2
        [("step", LogVal.str "training"), ("val_loss", LogVal.num 0)]
      = Except.error (CallbackError.valueError
          "ReduceLROnPlateau: No validation loss has been found") :=
  (plateau_raises_only_on_present_falsy_val_loss 2
      [("step", LogVal.str "training"), ("val_loss", LogVal.num 0)]
      (by decide)).2 (LogVal.num 0) (by decide) (by decide)

/-- C2 counterexample: at a `'training'` epoch end in `"valid"` mode with
no `'val_loss'` key anywhere in the logs, `on_epoch_end` neither raises
nor steps the scheduler — it silently returns. -/
theorem plateau_silent_skip_counterexample :
    ReduceLROnPlateau.on_epoch_end "valid" 1
        [("step", LogVal.str "training"), ("train_loss", LogVal.num 1)]
      = Except.ok [] := by
  simp [ReduceLROnPlateau.on_epoch_end, Logs.lookup, List.lookup, plateauLoop]

/-- C1 (code bug): torchlight `restore_model` with a single model and
*no* matching file on disk — 0 matching files, fewer than the 1 model —
leaves `i = 0`, passes its `i+1 == len(models)` assertion, and silently
reports success without restoring anything; torchlite `restore_models`
fails there as the claim requires. And when a file does match,
`torch.load(from_dir)` raises `IsADirectoryError` on the directory, so
`restore_model` never succeeds even on a complete match. -/
theorem restore_model_silent_success :
    restore_model ["Generator"] "checkpoint" [] = Except.ok ()
    ∧ (restore_models ["Generator"] "checkpoint" []).ok = false
    ∧ restore_model ["Generator"] "checkpoint" ["Generator.pth"]
        = Except.error ("IsADirectoryError: " ++ "checkpoint") :=
  ⟨rfl, by decide, rfl⟩

/-- `_check_integrity` never raises the non-numeric schema exception. -/
theorem checkIntegrity_ne_nonNumeric (fitted : List String) (df : List Col)
    (cols : List String) :
    checkIntegrity fitted df ≠ Except.error (TransformError.nonNumeric cols) := by
  intro h
  simp only [checkIntegrity] at h
  split_ifs at h <;> simp_all

/-- C7 amended: `transform` raises the schema exception carrying exactly
the list of still-non-numeric columns whenever the encoded DataFrame has
one; if the encoded DataFrame is all numeric, no schema exception can be
raised, and the encoded DataFrame is returned provided the NaN check and
the fitted-column integrity check also pass. -/
theorem transform_nonNumeric_check (all_feat : List String) (fix_missing : Bool)
    (naT catT : List Col → List Col) (scaler : Option (List Col → List Col))
    (fittedCols : List String) (X : List Col) :
    (getAllNonNumeric (encodedDF all_feat fix_missing naT catT scaler X) ≠ [] →
      BaseEncoder.transform all_feat fix_missing naT catT scaler fittedCols X
        = Except.error (TransformError.nonNumeric
            (getAllNonNumeric (encodedDF all_feat fix_missing naT catT scaler X))))
    ∧ (getAllNonNumeric (encodedDF all_feat fix_missing naT catT scaler X) = [] →
      ∀ cols, BaseEncoder.transform all_feat fix_missing naT catT scaler fittedCols X
        ≠ Except.error (TransformError.nonNumeric cols))
    ∧ (getAllNonNumeric (encodedDF all_feat fix_missing naT catT scaler X) = [] →
      (fix_missing && (encodedDF all_feat fix_missing naT catT scaler X).all
        (fun c => c.hasNa)) = false →
      checkIntegrity fittedCols (encodedDF all_feat fix_missing naT catT scaler X)
        = Except.ok true →
      BaseEncoder.transform all_feat fix_missing naT catT scaler fittedCols X
        = Except.ok (encodedDF all_feat fix_missing naT catT scaler X)) := by
  refine ⟨?_, ?_, ?_⟩
  · intro h
    simp only [BaseEncoder.transform]
    rw [if_pos h]
  · intro h cols hcontra
    simp only [BaseEncoder.transform] at hcontra
    rw [if_neg (fun hne => hne h)] at hcontra
    split_ifs at hcontra
    · cases hcontra
    · rcases hCI : checkIntegrity fittedCols (encodedDF all_feat fix_missing naT catT scaler X)
        with e | b
      · rw [hCI] at hcontra
        have hbe : ((Except.error e : Except TransformError Bool) >>= fun _ =>
            Except.ok (encodedDF all_feat fix_missing naT catT scaler X))
            = (Except.error e : Except TransformError (List Col)) := rfl
        rw [hbe] at hcontra
        injection hcontra with h'
        exact checkIntegrity_ne_nonNumeric fittedCols _ cols (h' ▸ hCI)
      · rw [hCI] at hcontra
        have hbo : ((Except.ok b : Except TransformError Bool) >>= fun _ =>
            Except.ok (encodedDF all_feat fix_missing naT catT scaler X))
            = Except.ok (encodedDF all_feat fix_missing naT catT scaler X) := rfl
        rw [hbo] at hcontra
        cases hcontra
  · intro h1 h2 h3
    simp only [BaseEncoder.transform]
    rw [if_neg (fun hne => hne h1), if_neg (by rw [h2]; exact Bool.false_ne_true), h3]
    rfl

/-- C7 witness: a column left non-numeric by the encoding makes
`transform` raise the schema exception that names it. -/
theorem transform_nonNumeric_witness :
    BaseEncoder.transform ["c"] false id id none ["c"]
        [{ name := "c", numeric := false, hasNa := false }]
      = Except.error (TransformError.nonNumeric ["c"]) := by
  have h := (transform_nonNumeric_check ["c"] false id id none ["c"]
    [{ name := "c", numeric := false, hasNa := false }]).1 (by decide)
  exact h

/-- C7 counterexample: an all-numeric transformed DataFrame does not
guarantee that the DataFrame is returned — the fitted-column integrity
check can still raise, so the claim's success half fails as stated. -/
theorem transform_allNumeric_counterexample :
    BaseEncoder.transform ["a", "b"] false id id none ["a", "b"]
        [{ name := "a", numeric := true, hasNa := false }]
      = Except.error (TransformError.colsMismatch ["b"])
    ∧ getAllNonNumeric (encodedDF ["a", "b"] false id id none
        [{ name := "a", numeric := true, hasNa := false }]) = [] :=
  ⟨rfl, rfl⟩

/-- C8 amended: at a triggering training epoch end, the torchlight saver
writes exactly one blob per named model, named `<class>.pth`; the
torchlite saver writes two blobs per model — an epoch-stamped copy
`<class>_epoch-N.pth` and `<class>.pth`; torchlite restore succeeds
exactly when every model's class-named file exists in the directory. -/
theorem saver_writes_per_model (M : Type) (to_dir : String) (epochs every_n_epoch : ℕ)
    (epoch : ℕ) (models : List (String × M))
    (hcond : epoch % every_n_epoch = 0 ∨ epoch = epochs) :
    saverLightOnEpochEnd to_dir epochs every_n_epoch "training" epoch models
      = models.map (fun km => (joinPath to_dir (km.1 ++ ".pth"), km.2))
    ∧ saverLiteOnEpochEnd to_dir epochs every_n_epoch "training" epoch models
      = models.flatMap (fun km =>
          [(joinPath to_dir (km.1 ++ "_epoch-" ++ toString epoch ++ ".pth"), km.2),
           (joinPath to_dir (km.1 ++ ".pth"), km.2)])
    ∧ ∀ (modelNames : List String) (from_dir : String) (files : List String),
        (restore_models modelNames from_dir files).ok = true ↔
          ∀ m ∈ modelNames, (m ++ ".pth") ∈ files := by
  refine ⟨?_, ?_, restore_models_ok_iff⟩
  · unfold saverLightOnEpochEnd
    rw [if_pos rfl, if_pos hcond]
  · unfold saverLiteOnEpochEnd
    rw [if_pos rfl, if_pos hcond]

/-- C8 witness: one model named `Mlp` at a triggering epoch gives exactly
the single write `dir/Mlp.pth` in the torchlight saver. -/
theorem saver_writes_per_model_witness :
    saverLightOnEpochEnd "dir" 5 1 "training" 1 [("Mlp", (0 : ℕ))]
      = [("dir/Mlp.pth", (0 : ℕ))] := by
  have h := (saver_writes_per_model ℕ "dir" 5 1 1 [("Mlp", (0 : ℕ))]
    (Or.inl (by decide))).1
  exact h

/-- C8 counterexample: a triggering epoch end of the torchlite saver
writes *two* files for the single model `Mlp`, one of them epoch-stamped,
so the save is not exactly one blob named `<class>.pth` per model. -/
theorem saver_lite_two_files_counterexample :
    saverLiteOnEpochEnd "dir" 5 1 "training" 1 [("Mlp", (0 : ℕ))]
      = [("dir/Mlp_epoch-1.pth", (0 : ℕ)), ("dir/Mlp.pth", (0 : ℕ))] := by
  decide

end EzeeML
